import Mathlib

/-!
Verification of `generate_names.py`, a one-shot batch script that merges a
hardcoded candidate list of name records into an existing JSON collection,
deduplicating by identifier, sorting case-insensitively by display name,
and rewriting the file.

The embedding translates the script directly: records become a structure,
the candidate list `additional_names` is transcribed verbatim, the
set-based deduplication filter becomes a list filter over the id list
(the script only uses the set for membership tests), and Python's stable
`list.sort` with key `x['name'].lower()` becomes a stable insertion sort
under the corresponding comparison.  Python string comparison is
lexicographic on code points, modelled by `lexLE` on `String.data`;
`str.lower()` on the ASCII data at hand is `Char.toLower` mapped over the
code points.  A stable sort's output is uniquely determined by the input
order and the comparison, so the stable `List.insertionSort` is a faithful
model of CPython's stable `list.sort`.  The fallible load step is modelled
with `Except`: `json.load` either yields the parsed collection or raises,
and a raised error propagates past the write and the prints.
-/

structure NameRecord where
  id : String
  name : String
  gender : String
  origins : List String
  styles : List String
  meaning : String
  popularity : String
deriving DecidableEq

def additional_names : List NameRecord := [
  {id := "aiden", name := "Aiden", gender := "male", origins := ["irish"], styles := ["modern", "strong"], meaning := "Little fire", popularity := "popular"},
  {id := "jackson", name := "Jackson", gender := "male", origins := ["english"], styles := ["modern", "strong"], meaning := "Son of Jack", popularity := "popular"},
  {id := "logan", name := "Logan", gender := "male", origins := ["scottish"], styles := ["modern", "strong"], meaning := "Small hollow", popularity := "popular"},
  {id := "lucas", name := "Lucas", gender := "male", origins := ["latin"], styles := ["classic", "modern"], meaning := "Light", popularity := "popular"},
  {id := "michael", name := "Michael", gender := "male", origins := ["hebrew"], styles := ["classic", "biblical"], meaning := "Who is like God", popularity := "popular"},
  {id := "emma", name := "Emma", gender := "female", origins := ["german"], styles := ["classic", "vintage"], meaning := "Universal", popularity := "popular"},
  {id := "olivia", name := "Olivia", gender := "female", origins := ["latin"], styles := ["classic", "literary"], meaning := "Olive tree", popularity := "popular"},
  {id := "ava", name := "Ava", gender := "female", origins := ["latin"], styles := ["modern", "elegant"], meaning := "Life", popularity := "popular"},
  {id := "sophia", name := "Sophia", gender := "female", origins := ["greek"], styles := ["classic", "elegant"], meaning := "Wisdom", popularity := "popular"},
  {id := "isabella", name := "Isabella", gender := "female", origins := ["italian", "spanish"], styles := ["classic", "royal"], meaning := "Devoted to God", popularity := "popular"},
  {id := "mia", name := "Mia", gender := "female", origins := ["italian", "scandinavian"], styles := ["modern", "gentle"], meaning := "Mine", popularity := "popular"},
  {id := "charlotte", name := "Charlotte", gender := "female", origins := ["french"], styles := ["classic", "royal"], meaning := "Free woman", popularity := "popular"},
  {id := "amelia", name := "Amelia", gender := "female", origins := ["german"], styles := ["classic", "vintage"], meaning := "Industrious", popularity := "popular"},
  {id := "harper", name := "Harper", gender := "female", origins := ["english"], styles := ["modern", "literary"], meaning := "Harp player", popularity := "popular"},
  {id := "evelyn", name := "Evelyn", gender := "female", origins := ["english"], styles := ["vintage", "elegant"], meaning := "Desired", popularity := "popular"},
  {id := "river", name := "River", gender := "neutral", origins := ["english"], styles := ["nature", "modern"], meaning := "Flowing water", popularity := "common"},
  {id := "sage", name := "Sage", gender := "neutral", origins := ["latin"], styles := ["nature", "bohemian"], meaning := "Wise one", popularity := "common"},
  {id := "willow", name := "Willow", gender := "female", origins := ["english"], styles := ["nature", "gentle"], meaning := "Willow tree", popularity := "common"},
  {id := "aspen", name := "Aspen", gender := "neutral", origins := ["english"], styles := ["nature", "modern"], meaning := "Quaking tree", popularity := "uncommon"},
  {id := "ivy", name := "Ivy", gender := "female", origins := ["english"], styles := ["nature", "vintage"], meaning := "Climbing plant", popularity := "common"},
  {id := "hazel", name := "Hazel", gender := "female", origins := ["english"], styles := ["nature", "vintage"], meaning := "Hazelnut tree", popularity := "common"},
  {id := "jasper", name := "Jasper", gender := "male", origins := ["persian"], styles := ["nature", "vintage"], meaning := "Treasurer", popularity := "uncommon"},
  {id := "rowan", name := "Rowan", gender := "neutral", origins := ["irish"], styles := ["nature", "celtic"], meaning := "Little red one", popularity := "uncommon"},
  {id := "oak", name := "Oak", gender := "male", origins := ["english"], styles := ["nature", "strong"], meaning := "Oak tree", popularity := "rare"},
  {id := "wren", name := "Wren", gender := "female", origins := ["english"], styles := ["nature", "gentle"], meaning := "Small bird", popularity := "uncommon"},
  {id := "santiago", name := "Santiago", gender := "male", origins := ["spanish"], styles := ["classic", "strong"], meaning := "Saint James", popularity := "common"},
  {id := "diego", name := "Diego", gender := "male", origins := ["spanish"], styles := ["classic", "strong"], meaning := "Supplanter", popularity := "common"},
  {id := "sofia", name := "Sofia", gender := "female", origins := ["spanish", "italian"], styles := ["classic", "elegant"], meaning := "Wisdom", popularity := "popular"},
  {id := "aria", name := "Aria", gender := "female", origins := ["italian"], styles := ["modern", "artistic"], meaning := "Air, melody", popularity := "popular"},
  {id := "luna", name := "Luna", gender := "female", origins := ["latin", "spanish"], styles := ["modern", "mystical"], meaning := "Moon", popularity := "popular"},
  {id := "kai", name := "Kai", gender := "neutral", origins := ["hawaiian", "japanese"], styles := ["modern", "nature"], meaning := "Sea", popularity := "common"},
  {id := "yuki", name := "Yuki", gender := "neutral", origins := ["japanese"], styles := ["modern", "gentle"], meaning := "Snow", popularity := "uncommon"},
  {id := "arjun", name := "Arjun", gender := "male", origins := ["indian"], styles := ["classic", "strong"], meaning := "Bright, shining", popularity := "common"},
  {id := "priya", name := "Priya", gender := "female", origins := ["indian"], styles := ["classic", "gentle"], meaning := "Beloved", popularity := "common"},
  {id := "omar", name := "Omar", gender := "male", origins := ["arabic"], styles := ["classic", "strong"], meaning := "Flourishing", popularity := "common"},
  {id := "layla", name := "Layla", gender := "female", origins := ["arabic"], styles := ["classic", "romantic"], meaning := "Night", popularity := "popular"},
  {id := "zara", name := "Zara", gender := "female", origins := ["arabic"], styles := ["modern", "elegant"], meaning := "Princess", popularity := "common"},
  {id := "theodore", name := "Theodore", gender := "male", origins := ["greek"], styles := ["vintage", "classic"], meaning := "Gift of God", popularity := "popular"},
  {id := "arthur", name := "Arthur", gender := "male", origins := ["celtic"], styles := ["vintage", "royal"], meaning := "Bear", popularity := "common"},
  {id := "felix", name := "Felix", gender := "male", origins := ["latin"], styles := ["vintage", "cheerful"], meaning := "Happy, fortunate", popularity := "uncommon"},
  {id := "augustus", name := "Augustus", gender := "male", origins := ["latin"], styles := ["vintage", "royal"], meaning := "Great, magnificent", popularity := "uncommon"},
  {id := "beatrice", name := "Beatrice", gender := "female", origins := ["latin"], styles := ["vintage", "literary"], meaning := "She who brings happiness", popularity := "uncommon"},
  {id := "clara", name := "Clara", gender := "female", origins := ["latin"], styles := ["vintage", "classic"], meaning := "Bright, clear", popularity := "common"},
  {id := "eleanor", name := "Eleanor", gender := "female", origins := ["french"], styles := ["vintage", "royal"], meaning := "Light", popularity := "popular"},
  {id := "josephine", name := "Josephine", gender := "female", origins := ["french"], styles := ["vintage", "elegant"], meaning := "God will increase", popularity := "common"},
  {id := "florence", name := "Florence", gender := "female", origins := ["latin"], styles := ["vintage", "classic"], meaning := "Flourishing", popularity := "uncommon"},
  {id := "mabel", name := "Mabel", gender := "female", origins := ["latin"], styles := ["vintage", "gentle"], meaning := "Lovable", popularity := "uncommon"},
  {id := "abraham", name := "Abraham", gender := "male", origins := ["hebrew"], styles := ["biblical", "classic"], meaning := "Father of multitudes", popularity := "common"},
  {id := "ezekiel", name := "Ezekiel", gender := "male", origins := ["hebrew"], styles := ["biblical", "strong"], meaning := "God strengthens", popularity := "uncommon"},
  {id := "isaiah", name := "Isaiah", gender := "male", origins := ["hebrew"], styles := ["biblical", "strong"], meaning := "Salvation of the Lord", popularity := "popular"},
  {id := "jeremiah", name := "Jeremiah", gender := "male", origins := ["hebrew"], styles := ["biblical", "strong"], meaning := "Appointed by God", popularity := "common"},
  {id := "micah", name := "Micah", gender := "neutral", origins := ["hebrew"], styles := ["biblical", "modern"], meaning := "Who is like God", popularity := "common"},
  {id := "sarah", name := "Sarah", gender := "female", origins := ["hebrew"], styles := ["biblical", "classic"], meaning := "Princess", popularity := "popular"},
  {id := "rebecca", name := "Rebecca", gender := "female", origins := ["hebrew"], styles := ["biblical", "classic"], meaning := "To bind", popularity := "common"},
  {id := "rachel", name := "Rachel", gender := "female", origins := ["hebrew"], styles := ["biblical", "classic"], meaning := "Ewe", popularity := "common"},
  {id := "leah", name := "Leah", gender := "female", origins := ["hebrew"], styles := ["biblical", "gentle"], meaning := "Weary", popularity := "common"},
  {id := "hannah", name := "Hannah", gender := "female", origins := ["hebrew"], styles := ["biblical", "classic"], meaning := "Grace", popularity := "popular"}
]

/-- Python `s.lower()` as a sequence of code points (the records' data is
ASCII, where `Char.toLower` agrees with `str.lower`). -/
def lowerName (s : String) : List Char := s.data.map Char.toLower

/-- Python `<=` on strings: lexicographic comparison of code points. -/
def lexLE : List Char → List Char → Bool
  | [], _ => true
  | _ :: _, [] => false
  | a :: as, b :: bs => if a < b then true else if b < a then false else lexLE as bs

/-- The identifiers of a collection.  The script builds the set
`existing_ids = {name['id'] for name in existing_names}` and only tests
membership in it, so the list of ids with list membership is an exact model. -/
def idsOf (l : List NameRecord) : List String := l.map (fun n => n.id)

/-- `new_names = [name for name in additional_names if name['id'] not in existing_ids]` -/
def new_names (existing : List NameRecord) : List NameRecord :=
  additional_names.filter (fun n => decide (n.id ∉ idsOf existing))

/-- The comparison used by `all_names.sort(key=lambda x: x['name'].lower())`:
keys compare as lowercased display names, lexicographically by code point. -/
def nameLE (a b : NameRecord) : Prop :=
  lexLE (lowerName a.name) (lowerName b.name) = true

instance : DecidableRel nameLE := fun a b =>
  inferInstanceAs (Decidable (lexLE (lowerName a.name) (lowerName b.name) = true))

/-- `all_names = existing_names + new_names`, then
`all_names.sort(key=lambda x: x['name'].lower())`: a stable sort of the
concatenation by the case-insensitive name key. -/
def all_names (existing : List NameRecord) : List NameRecord :=
  List.insertionSort nameLE (existing ++ new_names existing)

/-- The observable outcome of a successful run: the list written back to
the file, and the two lines printed to standard output. -/
structure RunResult where
  written : List NameRecord
  line1 : String
  line2 : String
deriving DecidableEq

/-- The whole script.  The load step either yields the parsed collection
or fails with an IO/parse error; an error propagates unhandled, so neither
the write nor the prints happen and the destination file keeps its prior
contents.  On success the merged collection is written back and the two
summary lines are printed. -/
def runScript (loaded : Except String (List NameRecord)) : Except String RunResult :=
  match loaded with
  | .error e => .error e
  | .ok existing =>
      let newOnes := new_names existing
      let merged := all_names existing
      .ok { written := merged,
            line1 := "Database expanded from " ++ toString existing.length ++
                      " to " ++ toString merged.length ++ " names",
            line2 := "Added " ++ toString newOnes.length ++ " new names" }

theorem lexLE_refl (s : List Char) : lexLE s s = true := by
  induction s with
  | nil => rfl
  | cons a as ih => simp [lexLE, ih]

theorem lexLE_trans :
    ∀ s t u, lexLE s t = true → lexLE t u = true → lexLE s u = true := by
  intro s
  induction s with
  | nil => intro t u h₁ h₂; rfl
  | cons a as ih =>
    intro t u h₁ h₂
    match t, u with
    | [], _ => simp [lexLE] at h₁
    | b :: bs, [] => simp [lexLE] at h₂
    | b :: bs, c :: cs =>
      rcases lt_trichotomy a b with hab | hab | hab
      · rcases lt_trichotomy b c with hbc | hbc | hbc
        · simp [lexLE, lt_trans hab hbc]
        · subst hbc; simp [lexLE, hab]
        · exact absurd h₂ (by simp [lexLE, lt_asymm hbc, hbc])
      · subst hab
        simp only [lexLE, lt_self_iff_false, if_false] at h₁
        rcases lt_trichotomy a c with hac | hac | hac
        · simp [lexLE, hac]
        · subst hac
          simp only [lexLE, lt_self_iff_false, if_false] at h₂ ⊢
          exact ih _ _ h₁ h₂
        · exact absurd h₂ (by simp [lexLE, lt_asymm hac, hac])
      · exact absurd h₁ (by simp [lexLE, lt_asymm hab, hab])

theorem lexLE_total (s t : List Char) : lexLE s t = true ∨ lexLE t s = true := by
  induction s generalizing t with
  | nil => exact Or.inl rfl
  | cons a as ih =>
    match t with
    | [] => exact Or.inr rfl
    | b :: bs =>
      rcases lt_trichotomy a b with hab | hab | hab
      · exact Or.inl (by simp [lexLE, hab])
      · subst hab
        rcases ih bs with h | h
        · exact Or.inl (by simp [lexLE, h])
        · exact Or.inr (by simp [lexLE, h])
      · exact Or.inr (by simp [lexLE, hab])

instance : IsTrans NameRecord nameLE :=
  ⟨fun _ _ _ h₁ h₂ => lexLE_trans _ _ _ h₁ h₂⟩

instance : IsTotal NameRecord nameLE :=
  ⟨fun _ _ => lexLE_total _ _⟩

open scoped List

theorem all_names_perm (C : List NameRecord) :
    all_names C ~ C ++ new_names C :=
  List.perm_insertionSort nameLE _

theorem length_all_names (C : List NameRecord) :
    (all_names C).length = C.length + (new_names C).length := by
  rw [all_names, List.length_insertionSort, List.length_append]

theorem ids_nodup_all_names (C : List NameRecord) (h : (idsOf C).Nodup) :
    (idsOf (all_names C)).Nodup := by
  have hperm : idsOf (all_names C) ~ idsOf (C ++ new_names C) :=
    (all_names_perm C).map _
  refine hperm.nodup_iff.mpr ?_
  simp only [idsOf, List.map_append]
  refine List.Nodup.append h ?_ ?_
  · have hsub : new_names C <+ additional_names := List.filter_sublist _
    exact List.Nodup.sublist (hsub.map fun n => n.id) (by decide)
  · intro x hx₁ hx₂
    obtain ⟨n, hn, rfl⟩ := List.mem_map.mp hx₂
    have h' := (List.mem_filter.mp hn).2
    simp only [decide_eq_true_eq, idsOf] at h'
    exact h' hx₁

/-- C1: the merged collection's size is the initial size plus the number of
candidates whose identifier is not among the identifiers of the initial
collection. -/
theorem merged_size (C : List NameRecord) :
    (all_names C).length =
      C.length + additional_names.countP (fun n => decide (n.id ∉ idsOf C)) := by
  rw [length_all_names, new_names, List.countP_eq_length_filter]

/-- C2: every record of the initial collection appears unchanged in the
merged output, and the output's records carrying an already-existing
identifier are exactly the initial records (as a multiset): candidates are
never used to replace an existing record. -/
theorem existing_records_preserved (C : List NameRecord) :
    (∀ r ∈ C, r ∈ all_names C) ∧
      (all_names C).filter (fun r => decide (r.id ∈ idsOf C)) ~ C := by
  constructor
  · intro r hr
    exact (all_names_perm C).mem_iff.mpr (List.mem_append_left _ hr)
  · have h := (all_names_perm C).filter (fun r => decide (r.id ∈ idsOf C))
    rw [List.filter_append] at h
    have h₁ : C.filter (fun r => decide (r.id ∈ idsOf C)) = C := by
      refine List.filter_eq_self.mpr fun r hr => ?_
      simp only [decide_eq_true_eq, idsOf, List.mem_map]
      exact ⟨r, hr, rfl⟩
    have h₂ : (new_names C).filter (fun r => decide (r.id ∈ idsOf C)) = [] := by
      refine List.filter_eq_nil_iff.mpr fun n hn => ?_
      have h' := (List.mem_filter.mp hn).2
      simp only [decide_eq_true_eq] at h' ⊢
      exact h'
    rw [h₁, h₂, List.append_nil] at h
    exact h

/-- C3: the output is sorted by display name under case-insensitive
ordering: every adjacent pair of records has lowercased names in
lexicographic order. -/
theorem output_sorted_by_name (C : List NameRecord) :
    (all_names C).Chain' nameLE :=
  List.Pairwise.chain' (List.sorted_insertionSort nameLE _)

/-- C4 as stated is false: merging the candidate list into the empty
collection yields 57 records, not 56. -/
theorem empty_merge_size_ne_56 : ¬ ((all_names []).length = 56) := by decide

/-- C4 amended: merging the full candidate list into the empty collection
yields a collection whose size equals the candidate list length, which is
57 records, sorted with first display name "Abraham" and last "Zara". -/
theorem empty_merge_result :
    (all_names []).length = additional_names.length ∧
      additional_names.length = 57 ∧
      (all_names []).head?.map (fun r => r.name) = some "Abraham" ∧
      (all_names []).getLast?.map (fun r => r.name) = some "Zara" :=
  ⟨by decide, by decide, by decide, by decide⟩

/-- C5: if the input collection has pairwise-distinct identifiers, so does
the merged output. -/
theorem unique_ids_after_merge (C : List NameRecord) (h : (idsOf C).Nodup) :
    (idsOf (all_names C)).Nodup :=
  ids_nodup_all_names C h

/-- Witness for C5 at a concrete one-record collection. -/
theorem unique_ids_after_merge_witness :
    (idsOf ([⟨"ava", "Ava", "female", ["latin"], ["modern", "elegant"], "Life", "popular"⟩] :
        List NameRecord)).Nodup ∧
      (idsOf (all_names
        ([⟨"ava", "Ava", "female", ["latin"], ["modern", "elegant"], "Life", "popular"⟩] :
          List NameRecord))).Nodup :=
  ⟨by decide, unique_ids_after_merge _ (by decide)⟩

/-- C6: running the merge a second time adds nothing: the size after the
second run equals the size after the first. -/
theorem merge_size_idempotent (C : List NameRecord) :
    (all_names (all_names C)).length = (all_names C).length := by
  have hnil : new_names (all_names C) = [] := by
    rw [new_names]
    refine List.filter_eq_nil_iff.mpr fun n hn => ?_
    simp only [decide_eq_true_eq, not_not]
    have hperm : idsOf (all_names C) ~ idsOf (C ++ new_names C) :=
      (all_names_perm C).map _
    simp only [idsOf] at hperm ⊢
    rw [hperm.mem_iff]
    simp only [List.map_append, List.mem_append]
    by_cases hc : n.id ∈ C.map fun n => n.id
    · exact Or.inl hc
    · refine Or.inr ?_
      have hmem : n ∈ new_names C := by
        refine List.mem_filter.mpr ⟨hn, ?_⟩
        simp only [decide_eq_true_eq, idsOf]
        exact hc
      exact List.mem_map.mpr ⟨n, hmem, rfl⟩
  rw [length_all_names, hnil, List.length_nil, Nat.add_zero]

/-- C7: the sort is stable over the existing-then-new concatenation: for
any fixed lowercased-name key, the records carrying that key appear in the
output in exactly the order they had in the concatenation. -/
theorem sort_stable (k : List Char) (C : List NameRecord) :
    (all_names C).filter (fun r => decide (lowerName r.name = k)) =
      (C ++ new_names C).filter (fun r => decide (lowerName r.name = k)) := by
  have hpair :
      ((C ++ new_names C).filter (fun r => decide (lowerName r.name = k))).Pairwise nameLE := by
    refine List.pairwise_of_forall_mem_list fun a ha b hb => ?_
    have ea : lowerName a.name = k := of_decide_eq_true (List.mem_filter.mp ha).2
    have eb : lowerName b.name = k := of_decide_eq_true (List.mem_filter.mp hb).2
    show lexLE (lowerName a.name) (lowerName b.name) = true
    rw [ea, eb]
    exact lexLE_refl k
  have hstable :
      (C ++ new_names C).filter (fun r => decide (lowerName r.name = k)) <+ all_names C :=
    List.sublist_insertionSort hpair (List.filter_sublist _)
  have hsub₂ := hstable.filter (fun r => decide (lowerName r.name = k))
  have heq :
      ((C ++ new_names C).filter (fun r => decide (lowerName r.name = k))).filter
          (fun r => decide (lowerName r.name = k)) =
        (C ++ new_names C).filter (fun r => decide (lowerName r.name = k)) :=
    List.filter_eq_self.mpr fun a ha => (List.mem_filter.mp ha).2
  rw [heq] at hsub₂
  have hperm :
      (all_names C).filter (fun r => decide (lowerName r.name = k)) ~
        (C ++ new_names C).filter (fun r => decide (lowerName r.name = k)) :=
    (all_names_perm C).filter _
  exact (hsub₂.eq_of_length hperm.length_eq.symm).symm

/-- C8: a load failure (missing/unreadable/unparsable input) propagates
unhandled and nothing is written or printed; a successful load always
completes the run. -/
theorem load_error_propagates (e : String) (C : List NameRecord) :
    runScript (.error e) = .error e ∧ (runScript (.ok C)).isOk = true :=
  ⟨rfl, rfl⟩

/-- C9: a successful run prints exactly the two summary lines, where
`before` is the loaded size, `after` the written size, and the added count
equals `after - before`. -/
theorem report_lines (C : List NameRecord) :
    runScript (.ok C) =
      .ok { written := all_names C,
            line1 := "Database expanded from " ++ toString C.length ++
                      " to " ++ toString (all_names C).length ++ " names",
            line2 := "Added " ++ toString ((all_names C).length - C.length) ++
                      " new names" } := by
  have h : (new_names C).length = (all_names C).length - C.length := by
    rw [length_all_names]
    omega
  simp only [runScript, h]

/-- C10: the hardcoded candidate identifiers are pairwise distinct, so
merging into the empty collection yields pairwise-distinct identifiers. -/
theorem candidate_ids_nodup :
    (additional_names.map (fun n => n.id)).Nodup ∧ (idsOf (all_names [])).Nodup :=
  ⟨by decide, ids_nodup_all_names [] (by decide)⟩
